import Mathlib

/-!
Verification of the darling-api extension contract (`src/lib.rs`).

The Rust source defines three value types (`InstallationEntry`,
`DarlingConfig`, `Context`) and one trait (`PackageManager`) with five
operations.  We embed them shallowly: structs become structures,
`anyhow::Result<T>` becomes `Except DarlingError T` with a human-readable
`String` cause, the `HOME` environment variable becomes an explicit
`Option String` argument, and a `.unwrap()` panic becomes `Option.none`.
Trait objects become a record of pure functions; a method call on a shared
`&Context` reference is embedded as a wrapper that returns the result
together with the (necessarily unchanged) context.
-/

namespace DarlingApi

/-- Embeds `struct InstallationEntry` from `src/lib.rs`: the name of the
package plus a map of command-line properties.  The unordered
`HashMap<String, String>` is embedded as an association list. -/
structure InstallationEntry where
  name : String
  properties : List (String × String)
deriving DecidableEq, Repr

/-- Embeds `struct DarlingConfig`: the user-defined configuration options,
holding only `source_location`. -/
structure DarlingConfig where
  source_location : String
deriving DecidableEq, Repr

/-- Embeds `struct Context`: global immutable data about the current darling
session, wrapping one configuration value. -/
structure Context where
  config : DarlingConfig
deriving DecidableEq, Repr

/-- Errors of the fallible operations (`anyhow::Result` error side): an
opaque human-readable cause. -/
abbrev DarlingError := String

/-- Embeds `impl Default for DarlingConfig`:
`source_location = std::env::var("HOME").unwrap() + "/.local/share/darling/source"`.
The environment lookup is the `home` argument; the `.unwrap()` panic on a
missing value is embedded as `none`. -/
def darlingConfigDefault (home : Option String) : Option DarlingConfig :=
  match home with
  | some h => some { source_location := h ++ "/.local/share/darling/source" }
  | none => none

/-- Embeds the provided default body of `PackageManager::post_install`,
which is just `Ok(())`. -/
def defaultPostInstall : Context → Except DarlingError Unit :=
  fun _ => Except.ok ()

/-- Embeds `trait PackageManager`: a backend capability instance is a record
of its five operations.  `name(&self)` depends only on the instance, so it
is a `String` field; the fallible operations return `Except`.  The
`post_install` field carries the trait's provided default implementation. -/
structure PackageManager where
  name : String
  install : Context → InstallationEntry → Except DarlingError Unit
  postInstall : Context → Except DarlingError Unit := defaultPostInstall
  uninstall : Context → InstallationEntry → Except DarlingError Unit
  getAllExplicit : Context → Except DarlingError (List (String × String))

/-- Embeds the `#[derive(Clone)]` implementation for `InstallationEntry`:
a field-by-field copy of `name` and `properties`. -/
def InstallationEntry.clone (e : InstallationEntry) : InstallationEntry :=
  { name := e.name, properties := e.properties }

/-- A call to `name(&self)` in the presence of an ambient context: the
method takes no `&mut` reference, so the call returns the identifier and
leaves the context as it was passed. -/
def nameCall (pm : PackageManager) (ctx : Context) : String × Context :=
  (pm.name, ctx)

/-- A call to `install(&self, context: &Context, package: &InstallationEntry)`:
the context is taken by shared reference, so the call returns the `Result`
and the context as it was passed. -/
def installCall (pm : PackageManager) (ctx : Context) (e : InstallationEntry) :
    Except DarlingError Unit × Context :=
  (pm.install ctx e, ctx)

/-- A call to `post_install(&self, context: &Context)`: returns the `Result`
and the context as it was passed. -/
def postInstallCall (pm : PackageManager) (ctx : Context) :
    Except DarlingError Unit × Context :=
  (pm.postInstall ctx, ctx)

/-- A call to `uninstall(&self, context: &Context, package: &InstallationEntry)`:
returns the `Result` and the context as it was passed. -/
def uninstallCall (pm : PackageManager) (ctx : Context) (e : InstallationEntry) :
    Except DarlingError Unit × Context :=
  (pm.uninstall ctx e, ctx)

/-- A call to `get_all_explicit(&self, context: &Context)`: returns the
`Result` and the context as it was passed. -/
def getAllExplicitCall (pm : PackageManager) (ctx : Context) :
    Except DarlingError (List (String × String)) × Context :=
  (pm.getAllExplicit ctx, ctx)

/-- An observable event of an orchestrator run against one capability
instance: one `install` call with its entry and outcome, or one
`post_install` call with its outcome. -/
inductive Event where
  | install : InstallationEntry → Except DarlingError Unit → Event
  | uninstall : InstallationEntry → Except DarlingError Unit → Event
  | postInstall : Except DarlingError Unit → Event
deriving Repr

/-- Recognizes the `post_install` events of a trace. -/
def isPostInstallEvent : Event → Bool
  | Event.postInstall _ => true
  | Event.install _ _ => false
  | Event.uninstall _ _ => false

/-- Holds when an event is an `install` or `uninstall` call whose entry has
a non-empty name (vacuously true of `post_install` events). -/
def eventEntryNameNonempty : Event → Bool
  | Event.install e _ => !(e.name == "")
  | Event.uninstall e _ => !(e.name == "")
  | Event.postInstall _ => true

/-- Modelled from the spec: the batch orchestrator is an external
collaborator (darling-core) not present in this crate.  Per the spec it
drives a batch by invoking `install` once per entry, attempting every entry
regardless of failures, and then invoking `post_install` exactly once after
all `install` calls have returned. -/
def runBatch (pm : PackageManager) (ctx : Context)
    (entries : List InstallationEntry) : List Event :=
  entries.map (fun e => Event.install e (pm.install ctx e)) ++
    [Event.postInstall (pm.postInstall ctx)]

/-- Modelled from the spec: the orchestrator drives an uninstall batch by
invoking `uninstall` once per entry, attempting every entry regardless of
failures (no post-install hook is involved in removal). -/
def runUninstallBatch (pm : PackageManager) (ctx : Context)
    (entries : List InstallationEntry) : List Event :=
  entries.map (fun e => Event.uninstall e (pm.uninstall ctx e))

/-- Modelled from the spec: the orchestrator builds one `InstallationEntry`
per requested package from the user-supplied package name and long-form
key-value arguments, immediately before the `install`/`uninstall` call. -/
def buildEntries (reqs : List (String × List (String × String))) :
    List InstallationEntry :=
  reqs.map (fun r => { name := r.1, properties := r.2 })

/-- A concrete stub backend (the spec's `"stub"` scenario): every operation
succeeds, `post_install` is left at the trait's default. -/
def stubManager : PackageManager where
  name := "stub"
  install := fun _ _ => Except.ok ()
  uninstall := fun _ _ => Except.ok ()
  getAllExplicit := fun _ => Except.ok []

/-- A concrete context carrying the default configuration for a home
directory of `/home/u`. -/
def defaultCtx : Context :=
  { config := { source_location := "/home/u/.local/share/darling/source" } }

/-- A concrete installation entry with no properties. -/
def entryPkg : InstallationEntry := { name := "pkg", properties := [] }

/-- No `install` event satisfies `isPostInstallEvent`. -/
theorem countP_install_events_zero (l : List InstallationEntry)
    (f : InstallationEntry → Except DarlingError Unit) :
    (l.map (fun e => Event.install e (f e))).countP isPostInstallEvent = 0 := by
  induction l with
  | nil => rfl
  | cons a t ih => simp [List.countP_cons, isPostInstallEvent, ih]

/-- Claim C1: for any batch of N ≥ 1 `install` calls against the same
capability instance, the orchestrator's trace contains exactly one
`post_install` event, it is the final event of the trace, and the N
`install` events (one per entry, in order) all precede it. -/
theorem post_install_once_after_batch (pm : PackageManager) (ctx : Context)
    (entries : List InstallationEntry) (h : entries ≠ []) :
    (runBatch pm ctx entries).countP isPostInstallEvent = 1 ∧
    (runBatch pm ctx entries).getLast? =
      some (Event.postInstall (pm.postInstall ctx)) ∧
    (runBatch pm ctx entries).dropLast =
      entries.map (fun e => Event.install e (pm.install ctx e)) := by
  refine ⟨?_, ?_, ?_⟩
  · simp [runBatch, List.countP_append, countP_install_events_zero,
      List.countP_cons, isPostInstallEvent]
  · simp [runBatch]
  · simp [runBatch]

/-- Witness for C1 at the concrete one-entry batch of `entryPkg` against
`stubManager`. -/
theorem post_install_once_after_batch_witness :
    (runBatch stubManager defaultCtx [entryPkg]).countP isPostInstallEvent = 1 ∧
    (runBatch stubManager defaultCtx [entryPkg]).getLast? =
      some (Event.postInstall (stubManager.postInstall defaultCtx)) ∧
    (runBatch stubManager defaultCtx [entryPkg]).dropLast =
      [entryPkg].map (fun e => Event.install e (stubManager.install defaultCtx e)) :=
  post_install_once_after_batch stubManager defaultCtx [entryPkg]
    (List.cons_ne_nil _ _)

/-- Claim C2: a `PackageManager` that does not override `post_install`
(i.e. whose `post_install` is the trait's provided default) returns
`Ok(())` for every context. -/
theorem default_post_install_ok (pm : PackageManager)
    (h : pm.postInstall = defaultPostInstall) (ctx : Context) :
    pm.postInstall ctx = Except.ok () := by
  rw [h]; rfl

/-- Witness for C2: `stubManager` leaves `post_install` at its default and
returns `Ok(())` on the default-configuration context. -/
theorem default_post_install_ok_witness :
    stubManager.postInstall defaultCtx = Except.ok () :=
  default_post_install_ok stubManager rfl defaultCtx

/-- Claim C3: with a home-directory value of `/home/u`, the default
configuration constructor succeeds and yields
`source_location = "/home/u/.local/share/darling/source"`. -/
theorem default_config_home_u :
    darlingConfigDefault (some "/home/u") =
      some { source_location := "/home/u/.local/share/darling/source" } := by
  rfl

/-- Claim C4: the default configuration constructor aborts (panics, i.e.
yields no configuration value at all) exactly when no home-directory value
can be determined; whenever one is present it succeeds. -/
theorem default_config_fatal_iff_no_home (home : Option String) :
    (darlingConfigDefault home = none ↔ home = none) ∧
    (∀ h : String, ∃ cfg, darlingConfigDefault (some h) = some cfg) := by
  constructor
  · cases home <;> simp [darlingConfigDefault]
  · intro h
    exact ⟨{ source_location := h ++ "/.local/share/darling/source" }, rfl⟩

/-- Claim C5: every operation of the capability interface (`name`,
`install`, `post_install`, `uninstall`, `get_all_explicit`) receives the
context by shared reference and leaves the context, and hence the
configuration it wraps, unchanged. -/
theorem operations_preserve_context (pm : PackageManager) (ctx : Context)
    (e : InstallationEntry) :
    (nameCall pm ctx).2 = ctx ∧
    (installCall pm ctx e).2 = ctx ∧
    (postInstallCall pm ctx).2 = ctx ∧
    (uninstallCall pm ctx e).2 = ctx ∧
    (getAllExplicitCall pm ctx).2 = ctx ∧
    (installCall pm ctx e).2.config = ctx.config :=
  ⟨rfl, rfl, rfl, rfl, rfl, rfl⟩

/-- Claim C6: `name()` is deterministic and stable: calling it twice in
succession on the same instance returns the identical identifier both
times, and the call has no side effect on the ambient context. -/
theorem name_deterministic_stable (pm : PackageManager) (ctx : Context) :
    (nameCall pm ctx).1 = (nameCall pm (nameCall pm ctx).2).1 ∧
    (nameCall pm ctx).1 = pm.name ∧
    (nameCall pm ctx).2 = ctx :=
  ⟨rfl, rfl, rfl⟩

/-- Claim C7: when the orchestrator builds the batch entries from requests
whose package names are non-empty (the documented constraint on
`InstallationEntry.name`), every `install` call of an install batch and
every `uninstall` call of an uninstall batch receives an entry with a
non-empty name. -/
theorem install_uninstall_entries_nonempty_name (pm : PackageManager)
    (ctx : Context) (reqs : List (String × List (String × String)))
    (h : ∀ r ∈ reqs, r.1 ≠ "") :
    (runBatch pm ctx (buildEntries reqs)).all eventEntryNameNonempty = true ∧
    (runUninstallBatch pm ctx (buildEntries reqs)).all eventEntryNameNonempty
      = true := by
  constructor
  · simp only [runBatch, buildEntries, List.map_map, List.all_append,
      List.all_cons, List.all_nil, Bool.and_eq_true, List.all_eq_true]
    refine ⟨?_, rfl, trivial⟩
    intro ev hev
    rw [List.mem_map] at hev
    obtain ⟨r, hr, rfl⟩ := hev
    simp [Function.comp, eventEntryNameNonempty, h r hr]
  · simp only [runUninstallBatch, buildEntries, List.map_map,
      List.all_eq_true]
    intro ev hev
    rw [List.mem_map] at hev
    obtain ⟨r, hr, rfl⟩ := hev
    simp [Function.comp, eventEntryNameNonempty, h r hr]

/-- Witness for C7 at the concrete request list `[("pkg", [])]`. -/
theorem install_uninstall_entries_nonempty_name_witness :
    (runBatch stubManager defaultCtx
        (buildEntries [("pkg", [])])).all eventEntryNameNonempty = true ∧
    (runUninstallBatch stubManager defaultCtx
        (buildEntries [("pkg", [])])).all eventEntryNameNonempty = true :=
  install_uninstall_entries_nonempty_name stubManager defaultCtx [("pkg", [])]
    (by decide)

/-- Claim C9: the default configuration constructor validates nothing: any
present home-directory value, the empty string included, yields success
with that value concatenated with `/.local/share/darling/source`. -/
theorem default_config_no_validation :
    (∀ h : String, darlingConfigDefault (some h) =
      some { source_location := h ++ "/.local/share/darling/source" }) ∧
    darlingConfigDefault (some "") =
      some { source_location := "/.local/share/darling/source" } := by
  refine ⟨fun h => rfl, ?_⟩
  rfl

/-- Claim C10: cloning an `InstallationEntry` copies it field by field, so
the clone's `name` and `properties` are structurally equal to the
original's and the clone equals the original; the original is untouched. -/
theorem clone_preserves_entry (e : InstallationEntry) :
    (e.clone).name = e.name ∧
    (e.clone).properties = e.properties ∧
    e.clone = e :=
  ⟨rfl, rfl, rfl⟩

end DarlingApi
